import Mathlib

/-!
# Verification of the JM decoder's decoded-picture-buffer layer (ldecod/src/mbuffer.c)

A shallow embedding of the DPB capacity policy (`getDpbSize`), the buffer
lifecycle entry points (`init_dpb`, `free_dpb`) and the picture / frame-store
allocation and teardown routines (`alloc_frame_store`,
`alloc_storable_picture`, `free_frame_store`, `free_storable_picture`) of
`ldecod/src/mbuffer.c`, together with the decoder's `error` routine from
`ldecod.c`.

Modelling conventions:
* The decoder's `error(text, code)` routine only prints `text` to stderr and
  returns (the `exit(code)` call in its body is commented out in this
  repository), so every function that can call `error` is modelled as
  returning, besides its ordinary result, the list of error messages it
  emitted, in emission order.
* C `int` values that are nonnegative throughout these functions (picture
  dimensions, macroblock counts, DPB budgets) are modelled as `Nat`; C
  integer division and right shifts on them coincide with `Nat` division.
  The user-configured `dpb_plus` adjustments may be negative (config range
  -16..16) and are modelled as `Int`.
* Heap pointers that these functions own are modelled as `Option` of the
  pointed-to record; freeing an object is modelled by recording it in a
  "freed" log and dropping it from the state.  The shared sentinel
  ("no reference") picture is aliased, never owned, by other pictures, so a
  picture's `frame`/`top_field`/`bottom_field` aliases are modelled by the
  tag type `PicPtr` (`null` or `sentinel`).
* `is_FREXT_profile(profile_idc)` and the predicate
  `profile_idc == MVC_HIGH || profile_idc == STEREO_HIGH` are declared
  outside the provided sources (global.h / defines.h); they are pure
  predicates of the profile code and are modelled as the boolean inputs
  `frext_profile` and `mvc_profile`.  Likewise `RoundLog2`, used only on the
  multiview branch, is declared outside the provided sources and is passed
  as an explicit function argument `roundLog2`.
-/

/-- Picture structure kind (FRAME, TOP_FIELD, BOTTOM_FIELD). -/
inductive PictureStructure where
  | FRAME
  | TOP_FIELD
  | BOTTOM_FIELD
deriving DecidableEq, Repr

/-- Value of a `StorablePicture*` alias field (`frame`, `top_field`,
`bottom_field` inside a `StorablePicture`).  In the functions modelled here
such a field only ever holds NULL or the address of the shared sentinel
("no reference") picture, so it is modelled as a tag. -/
inductive PicPtr where
  | null
  | sentinel
deriving DecidableEq, Repr

/-- The fields of `seq_parameter_set_rbsp_t` read by the modelled functions.
`frext_profile` stands for `is_FREXT_profile(profile_idc)`, a predicate of
the SPS profile code declared outside the provided sources. -/
structure SeqParameterSet where
  frext_profile : Bool
  constrained_set3_flag : Bool
  level_idc : Nat
  pic_width_in_mbs_minus1 : Nat
  pic_height_in_map_units_minus1 : Nat
  frame_mbs_only_flag : Bool
  chroma_format_idc : Nat
  num_ref_frames : Nat
  max_dec_frame_buffering : Nat
  vui_parameters_present_flag : Bool
  vui_bitstream_restriction_flag : Bool
  vui_max_dec_frame_buffering : Nat
deriving DecidableEq, Repr

/-- The fields of `InputParameters` read by the modelled functions: the
user-configured signed DPB size adjustments `dpb_plus[0]` / `dpb_plus[1]`
(config items DPBPLUS0 / DPBPLUS1, each limited to -16..16). -/
structure InputParameters where
  dpb_plus0 : Int
  dpb_plus1 : Int
deriving DecidableEq, Repr

/-- Default values of the modelled configuration items, from the `Map[]`
initializer in ldecod/inc/configfile.h: DPBPLUS0 defaults to 1, DPBPLUS1
defaults to 0. -/
def defaultInputParameters : InputParameters :=
  { dpb_plus0 := 1, dpb_plus1 := 0 }

/-- One decoded picture (`StorablePicture`), restricted to the fields that
`alloc_storable_picture` initializes and `free_storable_picture` releases.
Buffer fields record the dimensions the allocation calls were made with:
`imgY` as (rows, cols) of the unpadded plane, `imgUV` as `some` of the
per-plane (rows, cols) when chroma is allocated (`chroma_format_idc`
different from YUV400 = 0) and `none` otherwise, `mv_info` / `motion` as the
(rows, cols) of the per-4x4-block arrays (`BLOCK_SHIFT` = 2, i.e. a right
shift by 2 of the per-pel dimensions).  `JV_planes` is the number of
additional per-colour-plane motion arrays (`MAX_PLANE` = 3 of them when
`separate_colour_plane_flag` is set, none otherwise).  `listX_alloc` records
whether the per-field reference lists were allocated. -/
structure StorablePicture where
  PicSizeInMbs : Nat
  imgY : Nat × Nat
  iLumaStride : Nat
  iLumaExpandedHeight : Nat
  imgUV : Option (Nat × Nat)
  iChromaStride : Nat
  iChromaExpandedHeight : Nat
  iLumaPadY : Nat
  iLumaPadX : Nat
  iChromaPadY : Nat
  iChromaPadX : Nat
  separate_colour_plane_flag : Nat
  mv_info : Nat × Nat
  motion : Nat × Nat
  JV_planes : Nat
  pic_num : Nat
  frame_num : Nat
  long_term_frame_idx : Nat
  long_term_pic_num : Nat
  used_for_reference : Nat
  is_long_term : Nat
  non_existing : Nat
  is_output : Nat
  max_slice_id : Nat
  view_id : Int
  structure_kind : PictureStructure
  size_x : Nat
  size_y : Nat
  size_x_cr : Nat
  size_y_cr : Nat
  size_x_m1 : Int
  size_y_m1 : Int
  size_x_cr_m1 : Int
  size_y_cr_m1 : Int
  top_field : PicPtr
  bottom_field : PicPtr
  frame : PicPtr
  coded_frame : Nat
  mb_aff_frame_flag : Nat
  top_poc : Int
  bottom_poc : Int
  poc : Int
  seiHasTone_mapping : Nat
  listX_alloc : Bool
deriving DecidableEq, Repr

/-- One DPB slot (`FrameStore`), restricted to the fields that
`alloc_frame_store` initializes and `free_frame_store` releases.  The three
attachment pointers are owning and independently optional.  The multiview
bookkeeping fields (`layer_id`, `view_id`, `inter_view_flag`,
`anchor_pic_flag`), which `init_dpb` sets to fixed initial constants and no
claim concerns, are not modelled. -/
structure FrameStore where
  is_used : Nat
  is_reference : Nat
  is_long_term : Nat
  is_orig_reference : Nat
  is_output : Nat
  frame : Option StorablePicture
  top_field : Option StorablePicture
  bottom_field : Option StorablePicture
deriving DecidableEq, Repr

/-- The fields of `VideoParameters` read or written by the modelled
functions.  `mvc_profile` stands for the test
`p_Vid->profile_idc == MVC_HIGH || p_Vid->profile_idc == STEREO_HIGH`
(profile constants declared outside the provided sources);
`num_views_minus1` is `p_Vid->active_subset_sps->num_views_minus1`. -/
structure VideoParameters where
  active_sps : SeqParameterSet
  p_Inp : InputParameters
  mvc_profile : Bool
  num_views_minus1 : Nat
  no_reference_picture : Option StorablePicture
  conceal_mode : Nat
  last_out_fs : Option FrameStore
  last_has_mmco_5 : Nat
  width : Nat
  height : Nat
  width_cr : Nat
  height_cr : Nat
  iLumaPadX : Nat
  iLumaPadY : Nat
  iChromaPadX : Nat
  iChromaPadY : Nat
  separate_colour_plane_flag : Nat
deriving DecidableEq, Repr

/-- The fields of `DecodedPictureBuffer` touched by the modelled functions.
`fs` is the Frame Store pool (`none` while the `fs` array pointer is NULL);
`fs_ref_alloc` / `fs_ltref_alloc` record whether the `fs_ref` / `fs_ltref`
index arrays are non-NULL (`free_dpb` frees them without clearing the
pointers, so they are left unchanged there).  `fs_ilref` is the one-element
inter-layer reference array: the outer `Option` is the array pointer, the
inner one is its single slot. -/
structure DecodedPictureBuffer where
  size : Int
  num_ref_frames : Nat
  used_size : Nat
  fs : Option (List FrameStore)
  fs_ref_alloc : Bool
  fs_ltref_alloc : Bool
  fs_ilref : Option (Option FrameStore)
  ref_frames_in_buffer : Nat
  ltref_frames_in_buffer : Nat
  last_output_poc : Int
  last_output_view_id : Int
  last_picture : Option FrameStore
  init_done : Bool
deriving DecidableEq, Repr

/-- `INT_MIN` from limits.h for 32-bit `int`. -/
def INT_MIN : Int := -2147483648

/-- Result of `getDpbSize`: the returned capacity together with the list of
messages passed to `error` (which in this repository prints and returns). -/
structure DpbSizeResult where
  value : Nat
  errors : List String
deriving DecidableEq, Repr

/-- The local `pic_size_mb` computation at the top of `getDpbSize`
(mbuffer.c line 47): width-in-MBs times height-in-map-units, doubled for
field-coded (non-frame-mbs-only) streams. -/
def picSizeMb (sps : SeqParameterSet) : Nat :=
  (sps.pic_width_in_mbs_minus1 + 1) * (sps.pic_height_in_map_units_minus1 + 1) *
    (if sps.frame_mbs_only_flag then 1 else 2)

/-- The `switch (active_sps->level_idc)` table of `getDpbSize`
(mbuffer.c lines 51-118), for nonzero levels: the raw macroblock budget of a
recognized level, or `none` for the `default:` branch (which calls
`error ("undefined level", 500)` and leaves `size` at 0).  Level 0 is
handled before the table (immediate `return 16`).  Level 11 depends on
`is_FREXT_profile(profile_idc)` and `constrained_set3_flag`. -/
def dpbBudget (frext : Bool) (cs3 : Bool) : Nat → Option Nat
  | 9 => some 396
  | 10 => some 396
  | 11 => some (if !frext && cs3 then 396 else 900)
  | 12 => some 2376
  | 13 => some 2376
  | 20 => some 2376
  | 21 => some 4752
  | 22 => some 8100
  | 30 => some 8100
  | 31 => some 18000
  | 32 => some 20480
  | 40 => some 32768
  | 41 => some 32768
  | 42 => some 34816
  | 50 => some 110400
  | 51 => some 184320
  | 52 => some 184320
  | 60 => some 696320
  | 61 => some 696320
  | 62 => some 696320
  | _ => none

/-- `getDpbSize` (mbuffer.c lines 45-151).  `roundLog2` stands for the
decoder's `RoundLog2` routine (declared outside the provided sources), used
only on the multiview branch.  Returns the computed capacity and the list of
messages passed to `error`. -/
def getDpbSize (roundLog2 : Nat → Nat) (p_Vid : VideoParameters)
    (active_sps : SeqParameterSet) : DpbSizeResult :=
  let pic_size_mb := picSizeMb active_sps
  if active_sps.level_idc = 0 then
    -- if there is no level defined, we expect experimental usage and return a DPB size of 16
    { value := 16, errors := [] }
  else
    let sizeErr : Nat × List String :=
      match dpbBudget active_sps.frext_profile active_sps.constrained_set3_flag
          active_sps.level_idc with
      | some b => (b, [])
      | none => (0, ["undefined level"])
    let size1 := sizeErr.1 / pic_size_mb
    let size2 :=
      if p_Vid.mvc_profile then
        let num_views := p_Vid.num_views_minus1 + 1
        min (2 * size1) (max 1 (roundLog2 num_views) * 16) / num_views
      else
        min size1 16
    if active_sps.vui_parameters_present_flag &&
        active_sps.vui_bitstream_restriction_flag then
      let errs :=
        if active_sps.vui_max_dec_frame_buffering > size2 then
          sizeErr.2 ++ ["max_dec_frame_buffering larger than MaxDpbSize"]
        else sizeErr.2
      let size_vui := max 1 active_sps.vui_max_dec_frame_buffering
      { value := size_vui, errors := errs }
    else
      { value := size2, errors := sizeErr.2 }

/-- `alloc_frame_store` (mbuffer.c lines 333-353): a zeroed slot with all
three attachment pointers NULL. -/
def alloc_frame_store : FrameStore :=
  { is_used := 0
    is_reference := 0
    is_long_term := 0
    is_orig_reference := 0
    is_output := 0
    frame := none
    top_field := none
    bottom_field := none }

/-- `alloc_storable_picture` (mbuffer.c lines 384-487).  For a non-FRAME
structure the luma and chroma vertical sizes are halved before any buffer is
sized; the three structure-kind alias pointers are initialized from
`p_Vid->no_reference_picture` (the sentinel when it exists, NULL during the
sentinel's own allocation).  The unused trailing `int is_output` parameter
of the C function is kept for signature fidelity (the field is set to 0). -/
def alloc_storable_picture (p_Vid : VideoParameters) (ps : PictureStructure)
    (size_x size_y size_x_cr size_y_cr : Nat) (_is_output : Nat) :
    StorablePicture :=
  let size_y := if ps ≠ PictureStructure.FRAME then size_y / 2 else size_y
  let size_y_cr := if ps ≠ PictureStructure.FRAME then size_y_cr / 2 else size_y_cr
  let noRefPtr : PicPtr :=
    if p_Vid.no_reference_picture.isSome then PicPtr.sentinel else PicPtr.null
  { PicSizeInMbs := size_x * size_y / 256
    imgY := (size_y, size_x)
    iLumaStride := size_x + 2 * p_Vid.iLumaPadX
    iLumaExpandedHeight := size_y + 2 * p_Vid.iLumaPadY
    imgUV :=
      if p_Vid.active_sps.chroma_format_idc ≠ 0 then some (size_y_cr, size_x_cr)
      else none
    iChromaStride := size_x_cr + 2 * p_Vid.iChromaPadX
    iChromaExpandedHeight := size_y_cr + 2 * p_Vid.iChromaPadY
    iLumaPadY := p_Vid.iLumaPadY
    iLumaPadX := p_Vid.iLumaPadX
    iChromaPadY := p_Vid.iChromaPadY
    iChromaPadX := p_Vid.iChromaPadX
    separate_colour_plane_flag := p_Vid.separate_colour_plane_flag
    mv_info := (size_y >>> 2, size_x >>> 2)
    motion := (size_y >>> 2, size_x >>> 2)
    JV_planes := if p_Vid.separate_colour_plane_flag ≠ 0 then 3 else 0
    pic_num := 0
    frame_num := 0
    long_term_frame_idx := 0
    long_term_pic_num := 0
    used_for_reference := 0
    is_long_term := 0
    non_existing := 0
    is_output := 0
    max_slice_id := 0
    view_id := -1
    structure_kind := ps
    size_x := size_x
    size_y := size_y
    size_x_cr := size_x_cr
    size_y_cr := size_y_cr
    size_x_m1 := (size_x : Int) - 1
    size_y_m1 := (size_y : Int) - 1
    size_x_cr_m1 := (size_x_cr : Int) - 1
    size_y_cr_m1 := (size_y_cr : Int) - 1
    top_field := noRefPtr
    bottom_field := noRefPtr
    frame := noRefPtr
    coded_frame := 0
    mb_aff_frame_flag := 0
    top_poc := 0
    bottom_poc := 0
    poc := 0
    seiHasTone_mapping := 0
    listX_alloc :=
      !p_Vid.active_sps.frame_mbs_only_flag && ps ≠ PictureStructure.FRAME }

/-- `free_storable_picture` (mbuffer.c lines 544-602), modelled by its free
log: the list of pictures released by the call.  A NULL argument is tested
first and releases nothing. -/
def free_storable_picture : Option StorablePicture → List StorablePicture
  | none => []
  | some p => [p]

/-- `free_frame_store` (mbuffer.c lines 501-522), modelled by its free log:
the slots and the attached pictures released by the call (frame, then top
field, then bottom field).  A NULL argument is tested first and releases
nothing. -/
def free_frame_store : Option FrameStore → List FrameStore × List StorablePicture
  | none => ([], [])
  | some f =>
    ([f],
      free_storable_picture f.frame ++ free_storable_picture f.top_field ++
        free_storable_picture f.bottom_field)

/-- Result of `free_dpb`: the updated decoder and DPB state together with
the logs of freed Frame Stores and freed StorablePictures, in free order. -/
structure FreeDpbResult where
  vid : VideoParameters
  dpb : DecodedPictureBuffer
  freedStores : List FrameStore
  freedPics : List StorablePicture
deriving DecidableEq, Repr

/-- `free_dpb` (mbuffer.c lines 271-321).  Frees every Frame Store of the
pool when the pool array is non-NULL and clears the pool pointer; frees the
`fs_ref` / `fs_ltref` index arrays without clearing their pointers (so those
flags are left unchanged); frees the inter-layer slot and clears its array
pointer; resets `last_output_view_id`, `last_output_poc` and `init_done`;
frees `last_out_fs` when concealment is on or the pointer is non-NULL
(without clearing the pointer); finally frees the sentinel picture and
clears `p_Vid->no_reference_picture`. -/
def free_dpb (p_Vid : VideoParameters) (p_Dpb : DecodedPictureBuffer) :
    FreeDpbResult :=
  let pool : List FrameStore × List StorablePicture :=
    match p_Dpb.fs with
    | none => ([], [])
    | some l =>
      (l.flatMap (fun f => (free_frame_store (some f)).1),
        l.flatMap (fun f => (free_frame_store (some f)).2))
  let il : List FrameStore × List StorablePicture :=
    match p_Dpb.fs_ilref with
    | none => ([], [])
    | some slot => free_frame_store slot
  let lo : List FrameStore × List StorablePicture :=
    if p_Vid.conceal_mode ≠ 0 || p_Vid.last_out_fs.isSome then
      free_frame_store p_Vid.last_out_fs
    else ([], [])
  let sent := free_storable_picture p_Vid.no_reference_picture
  { vid := { p_Vid with no_reference_picture := none }
    dpb :=
      { p_Dpb with
        fs := none
        fs_ilref := none
        last_output_view_id := -1
        last_output_poc := INT_MIN
        init_done := false }
    freedStores := pool.1 ++ il.1 ++ lo.1
    freedPics := pool.2 ++ il.2 ++ lo.2 ++ sent }

/-- Result of `init_dpb`: the updated decoder and DPB state together with
the list of messages passed to `error` (which in this repository prints and
returns). -/
structure InitDpbResult where
  vid : VideoParameters
  dpb : DecodedPictureBuffer
  errors : List String
deriving DecidableEq, Repr

/-- The sentinel ("no reference") picture allocated by `init_dpb`
(mbuffer.c lines 242-248): a FRAME-structure picture at the decoder's
current dimensions whose three structure-kind pointers are then wired to
itself. -/
def sentinel_picture (p_Vid : VideoParameters) : StorablePicture :=
  let s := alloc_storable_picture p_Vid PictureStructure.FRAME p_Vid.width
    p_Vid.height p_Vid.width_cr p_Vid.height_cr 1
  { s with
    top_field := PicPtr.sentinel
    bottom_field := PicPtr.sentinel
    frame := PicPtr.sentinel }

/-- The body of `init_dpb` (mbuffer.c lines 160-263) after the
`init_done` teardown check: capacity computation (`getDpbSize` plus the
configured `dpb_plus` adjustment), the reference-frame-count check (the
MVC_EXTENSION_ENABLE build compares `active_sps->max_dec_frame_buffering`,
not the computed size, against `num_ref_frames`), pool allocation of
`size` slots (the C `size` field is unsigned; this model covers the
nonnegative regime via `Int.toNat`), inter-layer slot allocation for
`type == 2`, sentinel allocation when absent, and scalar resets. -/
def init_dpb_core (roundLog2 : Nat → Nat) (p_Vid : VideoParameters)
    (p_Dpb : DecodedPictureBuffer) (type : Int) : InitDpbResult :=
  let active_sps := p_Vid.active_sps
  let gd := getDpbSize roundLog2 p_Vid active_sps
  let size : Int :=
    (gd.value : Int) +
      (if type = 2 then p_Vid.p_Inp.dpb_plus1 else p_Vid.p_Inp.dpb_plus0)
  let errs :=
    if active_sps.max_dec_frame_buffering < active_sps.num_ref_frames then
      gd.errors ++
        ["DPB size at specified level is smaller than the specified number of reference frames. This is not allowed.\n"]
    else gd.errors
  let vid :=
    { p_Vid with
      no_reference_picture :=
        some (p_Vid.no_reference_picture.getD (sentinel_picture p_Vid))
      last_has_mmco_5 := 0
      last_out_fs :=
        if p_Vid.conceal_mode ≠ 0 && p_Vid.last_out_fs.isNone then
          some alloc_frame_store
        else p_Vid.last_out_fs }
  let dpb :=
    { p_Dpb with
      size := size
      num_ref_frames := active_sps.num_ref_frames
      used_size := 0
      last_picture := none
      ref_frames_in_buffer := 0
      ltref_frames_in_buffer := 0
      fs := some (List.replicate size.toNat alloc_frame_store)
      fs_ref_alloc := true
      fs_ltref_alloc := true
      fs_ilref := some (if type = 2 then some alloc_frame_store else none)
      last_output_poc := INT_MIN
      last_output_view_id := -1
      init_done := true }
  { vid := vid, dpb := dpb, errors := errs }

/-- `init_dpb` (mbuffer.c lines 160-263): when the DPB was already
initialized it is first torn down completely by `free_dpb`, then the body
runs on the torn-down state. -/
def init_dpb (roundLog2 : Nat → Nat) (p_Vid : VideoParameters)
    (p_Dpb : DecodedPictureBuffer) (type : Int) : InitDpbResult :=
  if p_Dpb.init_done then
    let fr := free_dpb p_Vid p_Dpb
    init_dpb_core roundLog2 fr.vid fr.dpb type
  else
    init_dpb_core roundLog2 p_Vid p_Dpb type

/-! ## Concrete fixtures used by the evaluation theorems and witnesses -/

/-- A single-view frame-only SPS at level 31 with a 128x64 = 8192-macroblock
picture (the spec's 1920x1088-class scenario size), no VUI restriction
fields, 2 reference frames. -/
def spsLevel31 : SeqParameterSet :=
  { frext_profile := true
    constrained_set3_flag := false
    level_idc := 31
    pic_width_in_mbs_minus1 := 127
    pic_height_in_map_units_minus1 := 63
    frame_mbs_only_flag := true
    chroma_format_idc := 1
    num_ref_frames := 2
    max_dec_frame_buffering := 16
    vui_parameters_present_flag := false
    vui_bitstream_restriction_flag := false
    vui_max_dec_frame_buffering := 0 }

/-- Decoder state for `spsLevel31` with the default configuration
(DPBPLUS0 = 1), a non-multiview profile, and no sentinel allocated yet. -/
def vidLevel31 : VideoParameters :=
  { active_sps := spsLevel31
    p_Inp := defaultInputParameters
    mvc_profile := false
    num_views_minus1 := 0
    no_reference_picture := none
    conceal_mode := 0
    last_out_fs := none
    last_has_mmco_5 := 0
    width := 2048
    height := 1024
    width_cr := 1024
    height_cr := 512
    iLumaPadX := 32
    iLumaPadY := 32
    iChromaPadX := 16
    iChromaPadY := 16
    separate_colour_plane_flag := 0 }

/-- A DPB that was never initialized: NULL pool pointers, `init_done` 0. -/
def dpbUninit : DecodedPictureBuffer :=
  { size := 0
    num_ref_frames := 0
    used_size := 0
    fs := none
    fs_ref_alloc := false
    fs_ltref_alloc := false
    fs_ilref := none
    ref_frames_in_buffer := 0
    ltref_frames_in_buffer := 0
    last_output_poc := 0
    last_output_view_id := 0
    last_picture := none
    init_done := false }

/-- Level 30 with a 90x90 = 8100-macroblock picture, so the table-derived
bound is 8100 / 8100 = 1, and a VUI override of 2 that exceeds it. -/
def spsVuiOver : SeqParameterSet :=
  { spsLevel31 with
    level_idc := 30
    pic_width_in_mbs_minus1 := 89
    pic_height_in_map_units_minus1 := 89
    vui_parameters_present_flag := true
    vui_bitstream_restriction_flag := true
    vui_max_dec_frame_buffering := 2 }

/-- Decoder state for `spsVuiOver`. -/
def vidVuiOver : VideoParameters := { vidLevel31 with active_sps := spsVuiOver }

/-- An SPS whose `level_idc` = 14 is not one of the recognized level codes. -/
def spsBadLevel : SeqParameterSet := { spsLevel31 with level_idc := 14 }

/-- Decoder state for `spsBadLevel`. -/
def vidBadLevel : VideoParameters := { vidLevel31 with active_sps := spsBadLevel }

/-- A recognized level (9, raw budget 396 macroblocks) with a 397x1-
macroblock frame-only picture and no VUI restriction fields. -/
def spsLevel9Big : SeqParameterSet :=
  { spsLevel31 with
    level_idc := 9
    pic_width_in_mbs_minus1 := 396
    pic_height_in_map_units_minus1 := 0 }

/-- Decoder state for `spsLevel9Big`. -/
def vidLevel9Big : VideoParameters := { vidLevel31 with active_sps := spsLevel9Big }

/-- Level 30 with a 90x90 = 8100-macroblock picture (computed capacity 1)
but 4 signaled reference frames; `max_dec_frame_buffering` is 16, so the
MVC-build check in `init_dpb` does not fire. -/
def spsRefCheck : SeqParameterSet :=
  { spsLevel31 with
    level_idc := 30
    pic_width_in_mbs_minus1 := 89
    pic_height_in_map_units_minus1 := 89
    num_ref_frames := 4 }

/-- Decoder state for `spsRefCheck`, with a zero `dpb_plus` adjustment so
the stored DPB size equals the computed capacity 1. -/
def vidRefCheck : VideoParameters :=
  { vidLevel31 with
    active_sps := spsRefCheck
    p_Inp := { dpb_plus0 := 0, dpb_plus1 := 0 } }

/-- `spsLevel31` with a doubled picture width (256x64 = 16384 macroblocks),
for instantiating the monotonicity statement. -/
def spsLevel31Wide : SeqParameterSet :=
  { spsLevel31 with pic_width_in_mbs_minus1 := 255 }

/-! ## Claim theorems: capacity-policy evaluations -/

/-- Claim C5: at level 31 with an 8192-macroblock frame-only picture and no
VUI override, `getDpbSize` returns 18000 / 8192 = 2 (within the clip to
16), and `init_dpb` adds the configured default adjustment DPBPLUS0 = 1 for
the base layer (`type` different from 2), storing a DPB size of 3. -/
theorem init_dpb_level31_scenario :
    picSizeMb spsLevel31 = 8192 ∧
    (getDpbSize (fun _ => 0) vidLevel31 spsLevel31).value = 2 ∧
    vidLevel31.p_Inp.dpb_plus0 = 1 ∧
    (init_dpb (fun _ => 0) vidLevel31 dpbUninit 0).dpb.size = 3 := by
  decide

/-- Claim C1 (code bug): with a VUI `max_dec_frame_buffering` of 2
exceeding the table-derived bound 1 (level 30, 8100 macroblocks),
`getDpbSize` passes the conformance message to `error`, but `error` in this
repository only prints and returns (its `exit` is commented out, against
its own doc comment), so the decode session does not terminate: the call
returns normally, and with the over-bound override 2 as its value. -/
theorem getDpbSize_vui_over_bound_eval :
    (getDpbSize (fun _ => 0) vidVuiOver
      { spsVuiOver with vui_parameters_present_flag := false }).value = 1 ∧
    getDpbSize (fun _ => 0) vidVuiOver spsVuiOver =
      { value := 2,
        errors := ["max_dec_frame_buffering larger than MaxDpbSize"] } := by
  decide

/-- Claim C2 (code bug): on the unrecognized level code 14, `getDpbSize`
passes "undefined level" to `error`, but `error` in this repository only
prints and returns (its `exit` is commented out, against its own doc
comment), so the session is not aborted: the switch leaves the budget at 0
and the call returns the capacity value 0. -/
theorem getDpbSize_undefined_level_eval :
    getDpbSize (fun _ => 0) vidBadLevel spsBadLevel =
      { value := 0, errors := ["undefined level"] } := by
  decide

/-- Claim C4 (code bug): with a computed capacity of 1 and 4 signaled
reference frames, `init_dpb` raises no error at all and completes
initialization: the MVC_EXTENSION_ENABLE build compares
`active_sps->max_dec_frame_buffering` (16 here), not the computed capacity,
against `num_ref_frames`, and even when that check fires `error` only
prints and returns in this repository. -/
theorem init_dpb_ref_frames_check_eval :
    (init_dpb (fun _ => 0) vidRefCheck dpbUninit 0).dpb.size = 1 ∧
    (init_dpb (fun _ => 0) vidRefCheck dpbUninit 0).dpb.num_ref_frames = 4 ∧
    (init_dpb (fun _ => 0) vidRefCheck dpbUninit 0).dpb.size <
      ((init_dpb (fun _ => 0) vidRefCheck dpbUninit 0).dpb.num_ref_frames : Int) ∧
    (init_dpb (fun _ => 0) vidRefCheck dpbUninit 0).errors = [] ∧
    (init_dpb (fun _ => 0) vidRefCheck dpbUninit 0).dpb.init_done = true := by
  decide

/-- Claim C3, counterexample: at the recognized level code 9 (raw budget
396 macroblocks) with a 397-macroblock frame-only picture, a single-view
stream with no VUI override, `getDpbSize` returns 0, outside the claimed
interval [1, 16]. -/
theorem getDpbSize_range_counterexample :
    (getDpbSize (fun _ => 0) vidLevel9Big spsLevel9Big).value = 0 ∧
    ¬ 1 ≤ (getDpbSize (fun _ => 0) vidLevel9Big spsLevel9Big).value := by
  decide

/-- Claim C10: `free_frame_store` and `free_storable_picture` test their
argument for NULL before touching any field; called on a NULL pointer they
free nothing. -/
theorem free_null_noop :
    free_frame_store (none : Option FrameStore) = ([], []) ∧
    free_storable_picture (none : Option StorablePicture) = [] :=
  ⟨rfl, rfl⟩

/-! ## Capacity-policy lemmas -/

/-- The picture size in macroblocks is positive: both dimension factors are
successors and the field-doubling factor is 1 or 2. -/
lemma picSizeMb_pos (sps : SeqParameterSet) : 0 < picSizeMb sps := by
  unfold picSizeMb
  refine Nat.mul_pos (Nat.mul_pos (Nat.succ_pos _) (Nat.succ_pos _)) ?_
  cases sps.frame_mbs_only_flag <;> decide

/-- Level code 0 short-circuits `getDpbSize` to the fixed value 16 before
the table, the multiview branch and the VUI override. -/
lemma getDpbSize_level0 (rl : Nat → Nat) (v : VideoParameters)
    (sps : SeqParameterSet) (h0 : sps.level_idc = 0) :
    getDpbSize rl v sps = { value := 16, errors := [] } := by
  simp [getDpbSize, h0]

/-- Closed form of the value returned by `getDpbSize` for a non-multiview
profile with no VUI override at a nonzero level: the level budget (0 when
the level is unrecognized) divided by the picture size, clipped to 16. -/
lemma getDpbSize_single_view_no_vui (rl : Nat → Nat) (v : VideoParameters)
    (sps : SeqParameterSet) (hm : v.mvc_profile = false)
    (hv : sps.vui_parameters_present_flag = false)
    (h0 : sps.level_idc ≠ 0) :
    (getDpbSize rl v sps).value =
      min ((dpbBudget sps.frext_profile sps.constrained_set3_flag
        sps.level_idc).getD 0 / picSizeMb sps) 16 := by
  cases hb : dpbBudget sps.frext_profile sps.constrained_set3_flag sps.level_idc <;>
    simp [getDpbSize, hm, hv, h0, hb]

/-- Claim C3, amended: for a single-view (non-multiview-profile) stream
with no VUI override, `getDpbSize` returns a value in [0, 16] for every
level code, the value is at least 1 whenever the level is recognized and
the picture size does not exceed the level's raw macroblock budget, and for
a fixed level (and fixed level-11 profile inputs) the value is
monotonically non-increasing as the picture size in macroblocks
increases. -/
theorem getDpbSize_single_view_bounds_mono (rl : Nat → Nat)
    (v : VideoParameters) (sps sps' : SeqParameterSet)
    (hm : v.mvc_profile = false)
    (hv : sps.vui_parameters_present_flag = false)
    (hv' : sps'.vui_parameters_present_flag = false)
    (hl : sps'.level_idc = sps.level_idc)
    (hf : sps'.frext_profile = sps.frext_profile)
    (hc : sps'.constrained_set3_flag = sps.constrained_set3_flag)
    (hp : picSizeMb sps ≤ picSizeMb sps') :
    (getDpbSize rl v sps).value ≤ 16 ∧
    (∀ b, dpbBudget sps.frext_profile sps.constrained_set3_flag
        sps.level_idc = some b →
      picSizeMb sps ≤ b → 1 ≤ (getDpbSize rl v sps).value) ∧
    (getDpbSize rl v sps').value ≤ (getDpbSize rl v sps).value := by
  refine ⟨?_, ?_, ?_⟩
  · by_cases h0 : sps.level_idc = 0
    · rw [getDpbSize_level0 rl v sps h0]
    · rw [getDpbSize_single_view_no_vui rl v sps hm hv h0]
      exact min_le_right _ _
  · intro b hb hpb
    have h0 : sps.level_idc ≠ 0 := by
      intro h
      rw [h] at hb
      simp [dpbBudget] at hb
    rw [getDpbSize_single_view_no_vui rl v sps hm hv h0, hb]
    exact le_min ((Nat.one_le_div_iff (picSizeMb_pos sps)).mpr hpb) (by decide)
  · by_cases h0 : sps.level_idc = 0
    · rw [getDpbSize_level0 rl v sps h0, getDpbSize_level0 rl v sps' (hl.trans h0)]
    · have h0' : sps'.level_idc ≠ 0 := fun h => h0 (hl ▸ h)
      rw [getDpbSize_single_view_no_vui rl v sps hm hv h0,
        getDpbSize_single_view_no_vui rl v sps' hm hv' h0', hl, hf, hc]
      exact min_le_min
        (Nat.div_le_div_left hp (picSizeMb_pos sps)) le_rfl

/-- Witness for the amended claim C3, at level 31 with picture sizes 8192
and 16384 macroblocks. -/
theorem getDpbSize_single_view_bounds_mono_witness :
    (getDpbSize (fun _ => 0) vidLevel31 spsLevel31).value ≤ 16 ∧
    1 ≤ (getDpbSize (fun _ => 0) vidLevel31 spsLevel31).value ∧
    (getDpbSize (fun _ => 0) vidLevel31 spsLevel31Wide).value ≤
      (getDpbSize (fun _ => 0) vidLevel31 spsLevel31).value := by
  have h := getDpbSize_single_view_bounds_mono (fun _ => 0) vidLevel31
    spsLevel31 spsLevel31Wide rfl rfl rfl rfl rfl rfl (by decide)
  exact ⟨h.1, h.2.1 18000 rfl (by decide), h.2.2⟩

/-- Claim C6: for every recognized nonzero level code, a non-multiview
profile and no VUI override, `getDpbSize` divides the level-indexed raw
macroblock budget by the picture size in macroblocks — width-in-MBs times
height-in-map-units, doubled when `frame_mbs_only_flag` is 0 — rounding
down, and clips the quotient to the absolute ceiling 16. -/
theorem getDpbSize_formula (rl : Nat → Nat) (v : VideoParameters)
    (sps : SeqParameterSet) (b : Nat) (hm : v.mvc_profile = false)
    (h0 : sps.level_idc ≠ 0)
    (hb : dpbBudget sps.frext_profile sps.constrained_set3_flag
      sps.level_idc = some b)
    (hv : sps.vui_parameters_present_flag = false) :
    (getDpbSize rl v sps).value =
      min (b / ((sps.pic_width_in_mbs_minus1 + 1) *
        (sps.pic_height_in_map_units_minus1 + 1) *
        (if sps.frame_mbs_only_flag then 1 else 2))) 16 := by
  rw [getDpbSize_single_view_no_vui rl v sps hm hv h0, hb]
  rfl

/-- Witness for claim C6, at level 31 with an 8192-macroblock frame-only
picture: the returned value is min (18000 / 8192) 16. -/
theorem getDpbSize_formula_witness :
    (getDpbSize (fun _ => 0) vidLevel31 spsLevel31).value =
      min (18000 / ((spsLevel31.pic_width_in_mbs_minus1 + 1) *
        (spsLevel31.pic_height_in_map_units_minus1 + 1) *
        (if spsLevel31.frame_mbs_only_flag then 1 else 2))) 16 :=
  getDpbSize_formula (fun _ => 0) vidLevel31 spsLevel31 18000 rfl
    (by decide) rfl rfl

/-! ## Lifecycle theorems -/

/-- Claim C7: `init_dpb` on an already-initialized DPB first tears it down
completely via `free_dpb`; in every call it allocates exactly `size` Frame
Store slots, reuses the sentinel picture when one is present and otherwise
allocates it with its `frame` / `top_field` / `bottom_field` pointers wired
to itself, resets `used_size`, `ref_frames_in_buffer` and
`ltref_frames_in_buffer` to 0, and sets `last_output_poc` to INT_MIN. -/
theorem init_dpb_spec (rl : Nat → Nat) (v : VideoParameters)
    (d : DecodedPictureBuffer) (t : Int) :
    (d.init_done = true →
      init_dpb rl v d t =
        init_dpb_core rl (free_dpb v d).vid (free_dpb v d).dpb t) ∧
    (d.init_done = false → init_dpb rl v d t = init_dpb_core rl v d t) ∧
    (init_dpb rl v d t).dpb.fs =
      some (List.replicate (init_dpb rl v d t).dpb.size.toNat
        alloc_frame_store) ∧
    (init_dpb rl v d t).dpb.used_size = 0 ∧
    (init_dpb rl v d t).dpb.ref_frames_in_buffer = 0 ∧
    (init_dpb rl v d t).dpb.ltref_frames_in_buffer = 0 ∧
    (init_dpb rl v d t).dpb.last_output_poc = INT_MIN ∧
    (init_dpb rl v d t).dpb.init_done = true ∧
    (init_dpb rl v d t).vid.no_reference_picture =
      some ((if d.init_done then (free_dpb v d).vid
          else v).no_reference_picture.getD
        (sentinel_picture
          (if d.init_done then (free_dpb v d).vid else v))) ∧
    (sentinel_picture v).frame = PicPtr.sentinel ∧
    (sentinel_picture v).top_field = PicPtr.sentinel ∧
    (sentinel_picture v).bottom_field = PicPtr.sentinel := by
  by_cases hi : d.init_done <;>
    simp [init_dpb, init_dpb_core, hi, sentinel_picture]

/-- Witness for claim C7: a re-initialization call on an initialized DPB
goes through `free_dpb` first and resets the scalar counters. -/
theorem init_dpb_spec_witness :
    init_dpb (fun _ => 0) vidLevel31
        { dpbUninit with init_done := true, fs := some [alloc_frame_store] } 0 =
      init_dpb_core (fun _ => 0)
        (free_dpb vidLevel31
          { dpbUninit with init_done := true, fs := some [alloc_frame_store] }).vid
        (free_dpb vidLevel31
          { dpbUninit with init_done := true, fs := some [alloc_frame_store] }).dpb
        0 ∧
    (init_dpb (fun _ => 0) vidLevel31
      { dpbUninit with init_done := true, fs := some [alloc_frame_store] }
      0).dpb.used_size = 0 := by
  have h := init_dpb_spec (fun _ => 0) vidLevel31
    { dpbUninit with init_done := true, fs := some [alloc_frame_store] } 0
  exact ⟨h.1 rfl, h.2.2.2.1⟩

/-- Claim C8: `free_dpb` frees every Frame Store of the pool, transitively
freeing each attached StorablePicture, frees the sentinel picture and
clears its pointer, and resets `init_done`; with NULL pool state it frees
nothing and is still well-defined. -/
theorem free_dpb_spec (v : VideoParameters) (d : DecodedPictureBuffer) :
    (free_dpb v d).dpb.init_done = false ∧
    (free_dpb v d).dpb.fs = none ∧
    (free_dpb v d).vid.no_reference_picture = none ∧
    (∀ pool, d.fs = some pool → ∀ f ∈ pool,
      f ∈ (free_dpb v d).freedStores ∧
      ∀ p : StorablePicture,
        f.frame = some p ∨ f.top_field = some p ∨ f.bottom_field = some p →
          p ∈ (free_dpb v d).freedPics) ∧
    (∀ q, v.no_reference_picture = some q →
      q ∈ (free_dpb v d).freedPics) ∧
    (d.fs = none → d.fs_ilref = none → v.conceal_mode = 0 →
      v.last_out_fs = none → v.no_reference_picture = none →
      (free_dpb v d).freedStores = [] ∧ (free_dpb v d).freedPics = []) := by
  refine ⟨rfl, rfl, rfl, ?_, ?_, ?_⟩
  · intro pool hpool f hf
    constructor
    · simp [free_dpb, hpool, free_frame_store, List.mem_append,
        List.mem_flatMap]
      exact Or.inl hf
    · intro p hp
      simp [free_dpb, hpool, free_frame_store, List.mem_append,
        List.mem_flatMap]
      refine Or.inl ⟨f, hf, ?_⟩
      rcases hp with h | h | h <;> simp [h, free_storable_picture]
  · intro q hq
    simp [free_dpb, hq, free_storable_picture]
  · intro h1 h2 h3 h4 h5
    simp [free_dpb, h1, h2, h3, h4, h5, free_storable_picture]

/-- A small attached picture used by the `free_dpb` witness. -/
def picAttached : StorablePicture :=
  alloc_storable_picture vidLevel31 PictureStructure.FRAME 64 64 32 32 1

/-- A Frame Store slot with `picAttached` attached as its frame. -/
def fsAttached : FrameStore := { alloc_frame_store with frame := some picAttached }

/-- A decoder state whose sentinel picture is allocated. -/
def vidWithSentinel : VideoParameters :=
  { vidLevel31 with no_reference_picture := some (sentinel_picture vidLevel31) }

/-- An initialized one-slot DPB holding `fsAttached`. -/
def dpbOneSlot : DecodedPictureBuffer :=
  { dpbUninit with fs := some [fsAttached], init_done := true }

/-- Witness for claim C8: freeing a one-slot DPB frees the slot, its
attached picture and the sentinel, and clears `init_done`. -/
theorem free_dpb_spec_witness :
    fsAttached ∈ (free_dpb vidWithSentinel dpbOneSlot).freedStores ∧
    picAttached ∈ (free_dpb vidWithSentinel dpbOneSlot).freedPics ∧
    sentinel_picture vidLevel31 ∈
      (free_dpb vidWithSentinel dpbOneSlot).freedPics ∧
    (free_dpb vidWithSentinel dpbOneSlot).dpb.init_done = false := by
  have h := free_dpb_spec vidWithSentinel dpbOneSlot
  have hf := h.2.2.2.1 [fsAttached] rfl fsAttached (List.mem_singleton_self _)
  exact ⟨hf.1, hf.2 picAttached (Or.inl rfl),
    h.2.2.2.2.1 (sentinel_picture vidLevel31) rfl, h.1⟩

/-- Claim C9: for a TOP_FIELD or BOTTOM_FIELD request,
`alloc_storable_picture` halves the luma and chroma vertical sizes before
sizing the planes and the per-4x4-block motion arrays, allocates three
parallel motion arrays exactly when `separate_colour_plane_flag` is set,
and initializes the returned picture's `frame`, `top_field` and
`bottom_field` pointers to the sentinel no-reference picture (present by
hypothesis). -/
theorem alloc_storable_picture_field_spec (v : VideoParameters)
    (ps : PictureStructure) (sx sy sxc syc io : Nat)
    (hps : ps ≠ PictureStructure.FRAME)
    (hs : v.no_reference_picture.isSome = true) :
    (alloc_storable_picture v ps sx sy sxc syc io).imgY = (sy / 2, sx) ∧
    (alloc_storable_picture v ps sx sy sxc syc io).size_y = sy / 2 ∧
    (alloc_storable_picture v ps sx sy sxc syc io).size_y_cr = syc / 2 ∧
    (alloc_storable_picture v ps sx sy sxc syc io).imgUV =
      (if v.active_sps.chroma_format_idc ≠ 0 then some (syc / 2, sxc)
        else none) ∧
    (alloc_storable_picture v ps sx sy sxc syc io).mv_info =
      (sy / 2 / 4, sx / 4) ∧
    (alloc_storable_picture v ps sx sy sxc syc io).JV_planes =
      (if v.separate_colour_plane_flag ≠ 0 then 3 else 0) ∧
    (alloc_storable_picture v ps sx sy sxc syc io).frame = PicPtr.sentinel ∧
    (alloc_storable_picture v ps sx sy sxc syc io).top_field =
      PicPtr.sentinel ∧
    (alloc_storable_picture v ps sx sy sxc syc io).bottom_field =
      PicPtr.sentinel := by
  simp [alloc_storable_picture, hps, hs, Nat.shiftRight_eq_div_pow]

/-- Witness for claim C9: a 64x64-luma TOP_FIELD request under an allocated
sentinel gets a 32-row luma plane and sentinel-wired pointers. -/
theorem alloc_storable_picture_field_spec_witness :
    (alloc_storable_picture vidWithSentinel PictureStructure.TOP_FIELD
      64 64 32 32 0).imgY = (32, 64) ∧
    (alloc_storable_picture vidWithSentinel PictureStructure.TOP_FIELD
      64 64 32 32 0).frame = PicPtr.sentinel := by
  have h := alloc_storable_picture_field_spec vidWithSentinel
    PictureStructure.TOP_FIELD 64 64 32 32 0 (by decide) rfl
  exact ⟨by simpa using h.1, h.2.2.2.2.2.2.1⟩
